import Mathlib

/-!
Shallow embedding of the capture coordinator in src/client/camera_server.py.
Python dicts are modelled as association lists with in-place update, Python
sets as duplicate-free lists, machine floats used as wall-clock times as
natural-number ticks, and the poll loop of trigger_capture_and_wait over
exact rationals.  A read of a module global that was never assigned raises
NameError, which the FolderVar type makes explicit.
-/

namespace Photogrammetry

/-- Python exception classes that the embedded code can raise. -/
inductive PyErr
  | keyError
  | typeError
  | nameError
  | jsonDecodeError
  deriving DecidableEq, Repr

/-- Filesystem effects performed by the embedded code. -/
inductive FsOp
  | mkdir (p : String)
  | writeFile (p : String)
  deriving DecidableEq, Repr

/-- Python dict lookup (d.get(k)) on an association list. -/
def dictGet {α β : Type} [DecidableEq α] (d : List (α × β)) (k : α) : Option β :=
  match d with
  | [] => none
  | (k0, v) :: rest => if k0 = k then some v else dictGet rest k

/-- Python dict assignment d[k] = v: replaces the binding in place or appends. -/
def dictSet {α β : Type} [DecidableEq α] (d : List (α × β)) (k : α) (v : β) :
    List (α × β) :=
  match d with
  | [] => [(k, v)]
  | (k0, v0) :: rest => if k0 = k then (k0, v) :: rest else (k0, v0) :: dictSet rest k v

/-- Python dict d.pop(k, None): removes the binding for k when present. -/
def dictPop {α β : Type} [DecidableEq α] (d : List (α × β)) (k : α) : List (α × β) :=
  d.filter (fun p => decide (p.1 ≠ k))

/-- Python set.add: no-op when the element is present. -/
def setAdd {α : Type} [DecidableEq α] (s : List α) (x : α) : List α :=
  if x ∈ s then s else s ++ [x]

/-- Python set.remove: raises KeyError when the element is absent. -/
def setRemove {α : Type} [DecidableEq α] (s : List α) (x : α) :
    Except PyErr (List α) :=
  if x ∈ s then Except.ok (s.erase x) else Except.error PyErr.keyError

/-- Whether the needle is a leading segment of the haystack. -/
def leadsChars : List Char → List Char → Bool
  | [], _ => true
  | _ :: _, [] => false
  | a :: as, b :: bs => a == b && leadsChars as bs

/-- Whether the needle occurs somewhere inside the haystack. -/
def containsChars (needle : List Char) : List Char → Bool
  | [] => leadsChars needle []
  | c :: rest => leadsChars needle (c :: rest) || containsChars needle rest

/-- Python substring test, used for the check "timestamp" in existing[0]. -/
def containsSub (needle haystack : String) : Bool :=
  containsChars needle.data haystack.data

/-- sanitize_filename from camera_server.py, line 47: keep alphanumerics,
hyphen and underscore. -/
def sanitize_filename (s : String) : String :=
  String.mk (s.data.filter (fun c => c.isAlphanum || c == '-' || c == '_'))

/-- Applying sanitize_filename to a value that may be None (as line 108 does
with client_mac_map.get): iterating None raises TypeError. -/
def sanitize_filename_py (v : Option String) : Except PyErr String :=
  match v with
  | none => Except.error PyErr.typeError
  | some s => Except.ok (sanitize_filename s)

/-- METADATA_FIELDS from camera_server.py, lines 17-27: the fixed CSV schema. -/
def METADATA_FIELDS : List String :=
  ["timestamp", "mac", "device_id", "firmware_version", "board_type", "rssi",
   "resolution", "jpeg_quality", "image_size", "duration", "sync_delay"]

/-- SYNC_DELAY from camera_server.py, line 13. -/
def SYNC_DELAY : Nat := 2

/-- The header line written on every rewrite of the metadata CSV (line 153). -/
def headerLine : String := String.intercalate "," METADATA_FIELDS

/-- Rewrite of metadata_log.csv performed at lines 149-156: write the fixed
header, then the new row, then the previously read lines with their old
header dropped when the first line contains "timestamp". -/
def update_metadata_csv (existing : List String) (rowValues : List String) :
    List String :=
  headerLine :: String.intercalate "," rowValues ::
    (match existing with
     | [] => []
     | e0 :: rest => if containsSub "timestamp" e0 then rest else e0 :: rest)

/-- Fields of a capture_metadata message (camera_server.py lines 121-147). -/
structure MetaMsg where
  mac : Option String
  device_id : Option String
  firmware_version : Option String
  board_type : Option String
  rssi : Option String
  resolution : Option String
  jpeg_quality : Option String
  image_size : Option String
  deriving DecidableEq, Repr

/-- The CSV row built at lines 135-147, in METADATA_FIELDS order.  The csv
writer renders a missing value and a None duration as the empty string. -/
def metadata_row (m : MetaMsg) (tsStr : String) (duration : Option Int) :
    List String :=
  [tsStr, m.mac.getD "", m.device_id.getD "", m.firmware_version.getD "",
   m.board_type.getD "", m.rssi.getD "", m.resolution.getD "",
   m.jpeg_quality.getD "", m.image_size.getD "",
   (match duration with | none => "" | some d => toString d),
   toString SYNC_DELAY]

/-- State of the module global current_capture_folder: never assigned at
module level in camera_server.py, so it starts unbound (reading it raises
NameError); it is only ever rebound to a path string. -/
inductive FolderVar
  | unbound
  | pynone
  | path (p : String)
  deriving DecidableEq, Repr

/-- Payload of an inbound text frame after the json.loads attempt. -/
inductive TextPayload
  | malformed
  | metadata (m : MetaMsg)
  | other
  deriving DecidableEq, Repr

/-- One inbound websocket frame: binary image bytes or a text frame. -/
inductive Message
  | binary (size : Nat)
  | text (t : TextPayload)
  deriving DecidableEq, Repr

/-- Outcome of the initial hello exchange (lines 62-81): either no parseable
message arrived within the grace window, or a json object with a type tag,
an optional mac and an optional device_id was received. -/
inductive HelloOutcome
  | noMessage
  | parsed (ty : String) (mac : Option String) (device_id : Option String)
  deriving DecidableEq, Repr

/-- The module-level mutable state of camera_server.py. -/
structure ServerState where
  connected_clients : List Nat
  client_name_map : List (Nat × String)
  client_mac_map : List (Nat × String)
  mac_to_ws : List (String × Nat)
  image_receive_times : List (String × Nat)
  metadata_records : List (Option String × MetaMsg)
  capture_expected_clients : List Nat
  capture_received_clients : List Nat
  current_capture_folder : FolderVar
  capture_request_received_time : Option Nat
  csvLines : List String
  deriving DecidableEq, Repr

/-- State right after module import: empty registry, both capture globals
unbound, metadata_log.csv freshly created with only the header (lines 29-33). -/
def initState : ServerState :=
  { connected_clients := []
    client_name_map := []
    client_mac_map := []
    mac_to_ws := []
    image_receive_times := []
    metadata_records := []
    capture_expected_clients := []
    capture_received_clients := []
    current_capture_folder := FolderVar.unbound
    capture_request_received_time := none
    csvLines := [headerLine] }

/-- Result of one step of the message loop: possibly updated state, the
filesystem effects that happened before any exception, and the exception
(if one was raised, terminating the loop). -/
structure StepResult where
  state : ServerState
  ops : List FsOp
  err : Option PyErr
  deriving DecidableEq, Repr

/-- Registration of a freshly accepted connection (line 54):
connected_clients.add(websocket). -/
def client_connect (s : ServerState) (ws : Nat) : ServerState :=
  { s with connected_clients := setAdd s.connected_clients ws }

/-- The hello exchange of lines 57-84.  On a parsed hello with a truthy mac,
the mac maps are updated; in every case client_name_map is then assigned the
device name (declared or the generated placeholder). -/
def hello_phase (s : ServerState) (ws : Nat) (h : HelloOutcome) : ServerState :=
  let defaultName := "client_" ++ toString ws
  match h with
  | HelloOutcome.noMessage =>
      { s with client_name_map := dictSet s.client_name_map ws defaultName }
  | HelloOutcome.parsed ty mac did =>
      if ty = "hello" then
        let name := did.getD defaultName
        let s1 :=
          match mac with
          | none => s
          | some m =>
              if m = "" then s
              else { s with
                       client_mac_map := dictSet s.client_mac_map ws m,
                       mac_to_ws := dictSet s.mac_to_ws m ws }
        { s1 with client_name_map := dictSet s1.client_name_map ws name }
      else
        { s with client_name_map := dictSet s.client_name_map ws defaultName }

/-- The finally block of handle_client, lines 165-171:
connected_clients.remove (raising KeyError when absent), then the tolerant
pops of client_name_map and, when this handle announced a mac, of
client_mac_map and mac_to_ws. -/
def client_teardown (s : ServerState) (ws : Nat) : Except PyErr ServerState :=
  match setRemove s.connected_clients ws with
  | Except.error e => Except.error e
  | Except.ok conn =>
      let s1 := { s with
                    connected_clients := conn,
                    client_name_map := dictPop s.client_name_map ws }
      match dictGet s1.client_mac_map ws with
      | some mac =>
          Except.ok { s1 with
                        client_mac_map := dictPop s1.client_mac_map ws,
                        mac_to_ws := dictPop s1.mac_to_ws mac }
      | none => Except.ok s1

/-- Saving of a binary image once the capture folder is resolved, lines
107-117: sanitize the name, sanitize the possibly-absent mac (TypeError when
it is None), write the file, record the receive time for a truthy mac, and
add the websocket to capture_received_clients. -/
def handle_binary_save (s : ServerState) (ws : Nat) (now : Nat)
    (folder : String) (ops0 : List FsOp) : StepResult :=
  let senderName := (dictGet s.client_name_map ws).getD ("unknown_" ++ toString ws)
  let mac := dictGet s.client_mac_map ws
  let safeName := sanitize_filename senderName
  match sanitize_filename_py mac with
  | Except.error e => { state := s, ops := ops0, err := some e }
  | Except.ok safeMac =>
      let fname := folder ++ "/" ++ safeName ++ "-" ++ safeMac ++ ".jpg"
      let s1 :=
        match mac with
        | some m =>
            if m ≠ "" then
              { s with image_receive_times := dictSet s.image_receive_times m now }
            else s
        | none => s
      let s2 := { s1 with
                    capture_received_clients := setAdd s1.capture_received_clients ws }
      { state := s2, ops := ops0 ++ [FsOp.writeFile fname], err := none }

/-- Handling of a binary frame, lines 97-117.  Reading the module global
current_capture_folder raises NameError while it is unbound; when it is None
the fallback directory is created and bound first. -/
def handle_binary (s : ServerState) (ws : Nat) (now : Nat) : StepResult :=
  match s.current_capture_folder with
  | FolderVar.unbound => { state := s, ops := [], err := some PyErr.nameError }
  | FolderVar.pynone =>
      handle_binary_save
        { s with current_capture_folder := FolderVar.path "output/uncategorized" }
        ws now "output/uncategorized" [FsOp.mkdir "output/uncategorized"]
  | FolderVar.path p => handle_binary_save s ws now p []

/-- Handling of a text frame, lines 119-160: json.loads raises on a
malformed frame; a capture_metadata message updates metadata_records,
computes the optional duration (reading capture_request_received_time only
when the image time is truthy) and rewrites the CSV; any other parsed
message is only logged. -/
def handle_text (s : ServerState) (_now : Nat) (tsStr : String) :
    TextPayload → ServerState × Option PyErr
  | TextPayload.malformed => (s, some PyErr.jsonDecodeError)
  | TextPayload.other => (s, none)
  | TextPayload.metadata m =>
      let s1 := { s with metadata_records := dictSet s.metadata_records m.mac m }
      let imgTime : Option Nat :=
        match m.mac with
        | none => none
        | some k => dictGet s1.image_receive_times k
      let finish := fun (dur : Option Int) =>
        ({ s1 with csvLines := update_metadata_csv s1.csvLines (metadata_row m tsStr dur) },
         (none : Option PyErr))
      match imgTime with
      | some it =>
          if it ≠ 0 then
            match s1.capture_request_received_time with
            | none => (s1, some PyErr.nameError)
            | some rt =>
                if rt ≠ 0 then finish (some ((it : Int) - (rt : Int))) else finish none
          else finish none
      | none => finish none

/-- Dispatch of one inbound frame inside the async-for loop (lines 96-160). -/
def handle_message (s : ServerState) (ws : Nat) (now : Nat) (tsStr : String) :
    Message → StepResult
  | Message.binary _ => handle_binary s ws now
  | Message.text t =>
      let r := handle_text s now tsStr t
      { state := r.1, ops := [], err := r.2 }

/-- Result of running the message loop on a list of inbound frames. -/
structure LoopResult where
  state : ServerState
  ops : List FsOp
  err : Option PyErr
  consumed : Nat
  deriving DecidableEq, Repr

/-- The async-for message loop of handle_client (lines 95-163).  Only a
connection-closed exception is caught there, so any exception raised by a
frame handler terminates the loop with the remaining frames unprocessed. -/
def message_loop (s : ServerState) (ws : Nat) (now : Nat) (tsStr : String) :
    List Message → LoopResult
  | [] => { state := s, ops := [], err := none, consumed := 0 }
  | m :: rest =>
      let r := handle_message s ws now tsStr m
      match r.err with
      | some e => { state := r.state, ops := r.ops, err := some e, consumed := 1 }
      | none =>
          let r2 := message_loop r.state ws now tsStr rest
          { state := r2.state, ops := r.ops ++ r2.ops, err := r2.err,
            consumed := r2.consumed + 1 }

/-- The result dictionary returned by trigger_capture_and_wait on the
no-clients path (lines 231-236). -/
structure CaptureResult where
  success : Bool
  saved_images : Nat
  folder : String
  errorMsg : Option String
  deriving DecidableEq, Repr

/-- Effects and outcome of the synchronous head of trigger_capture_and_wait. -/
structure TriggerStart where
  state : ServerState
  dirsCreated : List String
  earlyResult : Option CaptureResult
  deriving DecidableEq, Repr

/-- Lines 206-236 of trigger_capture_and_wait up to the barrier: record the
request time, derive and create the output directory, snapshot the
expectation set, reset the received set, and return early with a failure
result when no clients are connected (after all of the above happened). -/
def trigger_capture_start (s : ServerState) (now : Nat) (tsStr : String) :
    TriggerStart :=
  let folder := "output/capture_" ++ tsStr
  let s1 := { s with
                capture_request_received_time := some now,
                current_capture_folder := FolderVar.path folder,
                capture_expected_clients := s.connected_clients,
                capture_received_clients := [] }
  if s.connected_clients = [] then
    { state := s1, dirsCreated := [folder],
      earlyResult := some { success := false, saved_images := 0, folder := folder,
                            errorMsg := some "No clients connected" } }
  else
    { state := s1, dirsCreated := [folder], earlyResult := none }

/-- check_interval from line 240, as an exact rational. -/
def check_interval : ℚ := 1 / 10

/-- One unrolling of the barrier poll loop of lines 241-247, in exact
arithmetic: waited equals k * check_interval after k sleeps; the loop first
tests waited < max_wait, then the done condition, then sleeps.  The fuel
argument only bounds the recursion and is chosen large enough. -/
def waitSleepsAux (done : Nat → Bool) (maxWait : ℚ) : Nat → Nat → Nat
  | 0, _ => 0
  | fuel + 1, k =>
      if maxWait ≤ (k : ℚ) * check_interval then 0
      else if done k then 0
      else waitSleepsAux done maxWait fuel (k + 1) + 1

/-- Number of 0.1-second sleeps performed by the barrier poll loop when the
poll at index k observes done k (received set equals expected set). -/
def waitSleeps (done : Nat → Bool) (maxWait : ℚ) : Nat :=
  waitSleepsAux done maxWait ((Int.ceil (maxWait * 10)).toNat + 1) 0

/-- Total time spent sleeping in the barrier poll loop. -/
def waitTotal (done : Nat → Bool) (maxWait : ℚ) : ℚ :=
  (waitSleeps done maxWait : ℚ) * check_interval

/-- One tick of broadcast_time (lines 176-183) is modelled by the list of
registered clients paired with whether the send to each succeeds. -/
def tick_failed (t : List (Nat × Bool)) : Bool :=
  t.any (fun c => !c.2)

/-- The sends started by asyncio.gather in one tick: all of them, since
gather schedules every coroutine before any exception propagates. -/
def tick_attempted (t : List (Nat × Bool)) : List Nat :=
  t.map Prod.fst

/-- The ticks the while-True loop of broadcast_time actually executes: the
gather of a failing tick raises (no return_exceptions flag), which
propagates out of the loop, so the failing tick is the last one executed. -/
def broadcast_executed : List (List (Nat × Bool)) → List (List (Nat × Bool))
  | [] => []
  | t :: ts => if tick_failed t then [t] else t :: broadcast_executed ts

/-- Registry and connection events that can interleave with a running
session: a connection is accepted, completes its hello exchange, delivers a
frame, or is torn down. -/
inductive REvent
  | connect (ws : Nat)
  | hello (ws : Nat) (h : HelloOutcome)
  | frame (ws : Nat) (now : Nat) (tsStr : String) (msg : Message)
  | disconnect (ws : Nat)
  deriving DecidableEq, Repr

/-- Effect of one event on the module state.  A teardown whose set.remove
raises leaves the state as it was at the raise point. -/
def applyEvent (s : ServerState) : REvent → ServerState
  | REvent.connect ws => client_connect s ws
  | REvent.hello ws h => hello_phase s ws h
  | REvent.frame ws now tsStr msg => (handle_message s ws now tsStr msg).state
  | REvent.disconnect ws =>
      match client_teardown s ws with
      | Except.ok s1 => s1
      | Except.error _ => s

/-- Folding a sequence of interleaved events over the module state. -/
def runEvents (s : ServerState) : List REvent → ServerState
  | [] => s
  | e :: rest => runEvents (applyEvent s e) rest

/-! Helper lemmas -/

theorem dictGet_dictPop_self {α β : Type} [DecidableEq α]
    (d : List (α × β)) (k : α) : dictGet (dictPop d k) k = none := by
  induction d with
  | nil => rfl
  | cons p rest ih =>
      by_cases h : p.1 = k
      · simpa [dictPop, h] using ih
      · simpa [dictPop, dictGet, h] using ih

theorem handle_binary_save_expected (s : ServerState) (ws now : Nat)
    (folder : String) (ops0 : List FsOp) :
    (handle_binary_save s ws now folder ops0).state.capture_expected_clients
      = s.capture_expected_clients := by
  unfold handle_binary_save
  cases hm : dictGet s.client_mac_map ws with
  | none => simp [sanitize_filename_py, hm]
  | some m =>
      by_cases hme : m = "" <;> simp [sanitize_filename_py, hm, hme]

theorem handle_binary_expected (s : ServerState) (ws now : Nat) :
    (handle_binary s ws now).state.capture_expected_clients
      = s.capture_expected_clients := by
  unfold handle_binary
  cases s.current_capture_folder with
  | unbound => rfl
  | pynone => exact handle_binary_save_expected _ _ _ _ _
  | path p => exact handle_binary_save_expected _ _ _ _ _

theorem handle_text_expected (s : ServerState) (now : Nat) (tsStr : String)
    (t : TextPayload) :
    (handle_text s now tsStr t).1.capture_expected_clients
      = s.capture_expected_clients := by
  cases t with
  | malformed => rfl
  | other => rfl
  | metadata m =>
      unfold handle_text
      cases hmac : m.mac with
      | none => simp only [hmac]
      | some k =>
          simp only [hmac]
          repeat' split
          all_goals rfl

theorem applyEvent_expected (s : ServerState) (e : REvent) :
    (applyEvent s e).capture_expected_clients = s.capture_expected_clients := by
  cases e with
  | connect ws => rfl
  | hello ws h =>
      cases h with
      | noMessage => rfl
      | parsed ty mac did =>
          unfold applyEvent hello_phase
          by_cases hty : ty = "hello"
          · cases mac with
            | none => simp [hty]
            | some m => by_cases hme : m = "" <;> simp [hty, hme]
          · simp [hty]
  | frame ws now tsStr msg =>
      cases msg with
      | binary sz => exact handle_binary_expected s ws now
      | text t => exact handle_text_expected s now tsStr t
  | disconnect ws =>
      unfold applyEvent client_teardown setRemove
      by_cases hmem : ws ∈ s.connected_clients
      · simp only [hmem, if_pos]
        cases dictGet s.client_mac_map ws <;> rfl
      · simp [hmem]

theorem runEvents_expected (evs : List REvent) :
    ∀ (s : ServerState),
      (runEvents s evs).capture_expected_clients = s.capture_expected_clients := by
  induction evs with
  | nil => intro s; rfl
  | cons e rest ih =>
      intro s
      calc (runEvents (applyEvent s e) rest).capture_expected_clients
            = (applyEvent s e).capture_expected_clients := ih _
        _ = s.capture_expected_clients := applyEvent_expected s e

/-! Claim theorems -/

/-- C4: the expected-device set recorded at trigger time equals the set of
live connections at that instant (trigger_capture_and_wait copies
connected_clients), and no later connection, hello, inbound frame or
disconnect event modifies it while the barrier wait is in progress. -/
theorem c4_expectation_frozen (s : ServerState) (now : Nat) (tsStr : String)
    (evs : List REvent) :
    (trigger_capture_start s now tsStr).state.capture_expected_clients
        = s.connected_clients
    ∧ (runEvents (trigger_capture_start s now tsStr).state evs).capture_expected_clients
        = s.connected_clients := by
  have hstart : (trigger_capture_start s now tsStr).state.capture_expected_clients
      = s.connected_clients := by
    unfold trigger_capture_start
    by_cases h : s.connected_clients = [] <;> simp [h]
  exact ⟨hstart, by rw [runEvents_expected evs, hstart]⟩

/-- C5: the claim that the registry mappings stay mutually consistent fails.
After device 1 announces mac AA, device 2 announces the same mac AA
(superseding it in mac_to_ws), and device 1 then disconnects, the teardown
pops mac_to_ws unconditionally: the address AA no longer maps to the live
handle 2, even though handle 2 is still connected and client_mac_map still
records AA for it. -/
theorem c5_supersede_teardown_eval :
    (runEvents initState
      [REvent.connect 1,
       REvent.hello 1 (HelloOutcome.parsed "hello" (some "AA") (some "cam1")),
       REvent.connect 2,
       REvent.hello 2 (HelloOutcome.parsed "hello" (some "AA") (some "cam2")),
       REvent.disconnect 1]).connected_clients = [2]
    ∧ dictGet (runEvents initState
      [REvent.connect 1,
       REvent.hello 1 (HelloOutcome.parsed "hello" (some "AA") (some "cam1")),
       REvent.connect 2,
       REvent.hello 2 (HelloOutcome.parsed "hello" (some "AA") (some "cam2")),
       REvent.disconnect 1]).client_mac_map 2 = some "AA"
    ∧ dictGet (runEvents initState
      [REvent.connect 1,
       REvent.hello 1 (HelloOutcome.parsed "hello" (some "AA") (some "cam1")),
       REvent.connect 2,
       REvent.hello 2 (HelloOutcome.parsed "hello" (some "AA") (some "cam2")),
       REvent.disconnect 1]).mac_to_ws "AA" = none := by
  decide

/-- C9 counterexample: removal is not idempotent.  Removing a freshly
registered handle succeeds (returning the registry to its initial state),
but removing the same handle again raises KeyError, because the finally
block uses set.remove on connected_clients. -/
theorem c9_remove_not_idempotent_cex :
    client_teardown (client_connect initState 1) 1 = Except.ok initState
    ∧ client_teardown initState 1 = Except.error PyErr.keyError :=
  ⟨rfl, rfl⟩

/-- C9 amended: removing a presently-live handle succeeds and in a single
pass cleans all three derived mappings for that handle — it leaves
connected_clients, removes its client_name_map and client_mac_map entries,
and removes the entry of its announced hardware address from mac_to_ws; but
removal is not idempotent, since a second removal of the same handle raises
KeyError from set.remove. -/
theorem c9_remove_cleans_mappings (s : ServerState) (ws : Nat)
    (hnd : s.connected_clients.Nodup) (hmem : ws ∈ s.connected_clients) :
    ∃ s1, client_teardown s ws = Except.ok s1
      ∧ ws ∉ s1.connected_clients
      ∧ dictGet s1.client_name_map ws = none
      ∧ dictGet s1.client_mac_map ws = none
      ∧ ∀ mac, dictGet s.client_mac_map ws = some mac →
          dictGet s1.mac_to_ws mac = none := by
  have herase : ws ∉ s.connected_clients.erase ws := fun hc =>
    ((List.Nodup.mem_erase_iff hnd).1 hc).1 rfl
  cases hg : dictGet s.client_mac_map ws with
  | none =>
      refine ⟨{ s with connected_clients := s.connected_clients.erase ws,
                       client_name_map := dictPop s.client_name_map ws },
              ?_, herase, dictGet_dictPop_self _ _, hg, ?_⟩
      · simp [client_teardown, setRemove, hmem, hg]
      · intro mac hmac
        exact Option.noConfusion hmac
  | some mac0 =>
      refine ⟨{ s with connected_clients := s.connected_clients.erase ws,
                       client_name_map := dictPop s.client_name_map ws,
                       client_mac_map := dictPop s.client_mac_map ws,
                       mac_to_ws := dictPop s.mac_to_ws mac0 },
              ?_, herase, dictGet_dictPop_self _ _, dictGet_dictPop_self _ _, ?_⟩
      · simp [client_teardown, setRemove, hmem, hg]
      · intro mac hmac
        cases hmac
        exact dictGet_dictPop_self _ _

/-- Witness for C9 amended at a registry holding exactly one live handle
that announced mac AA, so the mac_to_ws cleanup conjunct is exercised. -/
theorem c9_remove_cleans_mappings_witness :
    ∃ s1, client_teardown
        (runEvents initState
          [REvent.connect 1,
           REvent.hello 1 (HelloOutcome.parsed "hello" (some "AA") (some "cam1"))])
        1 = Except.ok s1
      ∧ 1 ∉ s1.connected_clients
      ∧ dictGet s1.client_name_map 1 = none
      ∧ dictGet s1.client_mac_map 1 = none
      ∧ ∀ mac, dictGet
            (runEvents initState
              [REvent.connect 1,
               REvent.hello 1 (HelloOutcome.parsed "hello" (some "AA") (some "cam1"))]).client_mac_map
            1 = some mac →
          dictGet s1.mac_to_ws mac = none :=
  c9_remove_cleans_mappings
    (runEvents initState
      [REvent.connect 1,
       REvent.hello 1 (HelloOutcome.parsed "hello" (some "AA") (some "cam1"))])
    1 (by decide) (by decide)

/-- An existing ledger row and a metadata record from a previously-unseen
device, used as the C1 counterexample input. -/
def oldRowC1 : String := "2025-01-01 00:00:00,OLDMAC,camA,,,,,,,,2"

/-- Metadata record announcing the previously-unseen device NEWDEV. -/
def newMetaC1 : MetaMsg :=
  { mac := some "NEWDEV", device_id := some "camB", firmware_version := none,
    board_type := none, rssi := none, resolution := none, jpeg_quality := none,
    image_size := none }

/-- C1 counterexample: appending a metadata record from the previously-unseen
device NEWDEV does not extend the header (the first output line is still the
fixed 11-column header, which mentions no NEWDEV column group), and the file
is written as header, then the NEW row, then the old rows — not as header,
then the backfilled old rows, then the new row. -/
theorem c1_fixed_schema_cex :
    update_metadata_csv [headerLine, oldRowC1]
        (metadata_row newMetaC1 "2025-01-02 00:00:00" none)
      = [headerLine, "2025-01-02 00:00:00,NEWDEV,camB,,,,,,,,2", oldRowC1]
    ∧ containsSub "NEWDEV" headerLine = false := by
  constructor
  · rfl
  · rfl

/-- C1 amended: a metadata append rewrites the file as the fixed header
(which never grows — it is always the 11 METADATA_FIELDS columns, with no
per-device column groups), then the new row, then the previously persisted
rows copied verbatim with the old header line dropped; prior rows are not
re-projected onto any new schema. -/
theorem c1_metadata_csv_rewrite (e0 : String) (rest row : List String)
    (h : containsSub "timestamp" e0 = true) :
    update_metadata_csv (e0 :: rest) row
      = headerLine :: String.intercalate "," row :: rest
    ∧ ∀ (existing row2 : List String),
        (update_metadata_csv existing row2).head? = some headerLine := by
  constructor
  · simp [update_metadata_csv, h]
  · intro existing row2
    rfl

/-- Witness for C1 amended on a one-row ledger. -/
theorem c1_metadata_csv_rewrite_witness :
    update_metadata_csv (headerLine :: [oldRowC1]) ["a", "b"]
      = headerLine :: String.intercalate "," ["a", "b"] :: [oldRowC1]
    ∧ ∀ (existing row2 : List String),
        (update_metadata_csv existing row2).head? = some headerLine :=
  c1_metadata_csv_rewrite headerLine [oldRowC1] ["a", "b"] (by decide)

/-- C2 counterexample: a malformed text frame followed by a further message.
The json.loads failure raises an error that the loop body does not catch
(only connection-closed is caught at line 162), so only one frame is
consumed and the subsequent message on the same connection is never
processed — the handler does not continue. -/
theorem c2_malformed_terminates_cex :
    (message_loop initState 1 100 "ts"
        [Message.text TextPayload.malformed, Message.text TextPayload.other]).err
      = some PyErr.jsonDecodeError
    ∧ (message_loop initState 1 100 "ts"
        [Message.text TextPayload.malformed, Message.text TextPayload.other]).consumed
      = 1
    ∧ (message_loop initState 1 100 "ts"
        [Message.text TextPayload.malformed, Message.text TextPayload.other]).consumed
      ≠ 2 := by
  refine ⟨rfl, rfl, ?_⟩
  decide

/-- C2 amended: an inbound text frame that is not parseable raises a JSON
decode error that escapes the message loop (only connection-closed is
caught), terminating the handler for that connection with the registry state
unchanged by the frame, no filesystem effect, and every subsequent message
on that connection unprocessed. -/
theorem c2_malformed_stops_loop (s : ServerState) (ws now : Nat)
    (tsStr : String) (rest : List Message) :
    message_loop s ws now tsStr (Message.text TextPayload.malformed :: rest)
      = { state := s, ops := [], err := some PyErr.jsonDecodeError,
          consumed := 1 } :=
  rfl

/-- C3 counterexample: triggering with zero devices connected does return an
immediate failure with zero saved images, but the session output directory
IS created (os.makedirs at line 213 runs before the empty-set check at line
227), contradicting the claim that no output directory is created. -/
theorem c3_no_clients_creates_dir_cex :
    (trigger_capture_start initState 50 "t").earlyResult
      = some { success := false, saved_images := 0, folder := "output/capture_t",
               errorMsg := some "No clients connected" }
    ∧ (trigger_capture_start initState 50 "t").dirsCreated = ["output/capture_t"]
    ∧ (trigger_capture_start initState 50 "t").dirsCreated ≠ [] := by
  refine ⟨rfl, rfl, ?_⟩
  decide

/-- C3 amended: with zero devices connected, TriggerCapture returns
immediately — before the barrier wait — a result with success false and
saved_images 0, but only after the per-session output directory has been
created and recorded in the result. -/
theorem c3_no_clients_early_failure (s : ServerState) (now : Nat)
    (tsStr : String) (h : s.connected_clients = []) :
    (trigger_capture_start s now tsStr).earlyResult
      = some { success := false, saved_images := 0,
               folder := "output/capture_" ++ tsStr,
               errorMsg := some "No clients connected" }
    ∧ (trigger_capture_start s now tsStr).dirsCreated
      = ["output/capture_" ++ tsStr] := by
  constructor <;> simp [trigger_capture_start, h]

/-- Witness for C3 amended on the freshly imported module state. -/
theorem c3_no_clients_early_failure_witness :
    (trigger_capture_start initState 50 "tw").earlyResult
      = some { success := false, saved_images := 0,
               folder := "output/capture_" ++ "tw",
               errorMsg := some "No clients connected" }
    ∧ (trigger_capture_start initState 50 "tw").dirsCreated
      = ["output/capture_" ++ "tw"] :=
  c3_no_clients_early_failure initState 50 "tw" rfl

/-- C6 counterexample: on a tick where the send to device 1 fails while the
send to device 2 succeeds, both sends are attempted (gather schedules every
send), but the exception propagates out of asyncio.gather — which is called
without return_exceptions — and terminates the while-True loop, so the
second scheduled tick never executes: the periodic broadcast does not
continue on its interval. -/
theorem c6_broadcast_dies_cex :
    broadcast_executed [[(1, false), (2, true)], [(1, true), (2, true)]]
      = [[(1, false), (2, true)]]
    ∧ tick_attempted [(1, false), (2, true)] = [1, 2]
    ∧ broadcast_executed [[(1, false), (2, true)], [(1, true), (2, true)]]
      ≠ [[(1, false), (2, true)], [(1, true), (2, true)]] := by
  refine ⟨rfl, rfl, ?_⟩
  decide

/-- C6 amended: within a single tick a failing send does not block or cancel
the sends to the other registered devices (all of them are scheduled by
gather), but the failure propagates out of the gather call and terminates
the periodic broadcast loop: ticks after the first failing tick never
execute. -/
theorem c6_gather_failure_stops_loop (pre : List (List (Nat × Bool)))
    (t : List (Nat × Bool)) (post : List (List (Nat × Bool)))
    (hpre : ∀ u ∈ pre, tick_failed u = false) (ht : tick_failed t = true) :
    broadcast_executed (pre ++ t :: post) = pre ++ [t]
    ∧ tick_attempted t = t.map Prod.fst := by
  refine ⟨?_, rfl⟩
  induction pre with
  | nil => simp [broadcast_executed, ht]
  | cons u us ih =>
      have hu : tick_failed u = false := hpre u (by simp)
      have ihus := ih (fun v hv => hpre v (by simp [hv]))
      simp [broadcast_executed, hu, ihus]

/-- Witness for C6 amended: one clean tick, then a tick whose first send
fails, then one scheduled tick that never runs. -/
theorem c6_gather_failure_stops_loop_witness :
    broadcast_executed ([[(1, true)]] ++ [(1, false), (2, true)] :: [[(2, true)]])
      = [[(1, true)]] ++ [[(1, false), (2, true)]]
    ∧ tick_attempted [(1, false), (2, true)]
      = [(1, false), (2, true)].map Prod.fst :=
  c6_gather_failure_stops_loop [[(1, true)]] [(1, false), (2, true)]
    [[(2, true)]] (by decide) (by decide)

/-- Registry state used for C7: a fresh coordinator (no capture ever
triggered, so the module global current_capture_folder was never assigned)
with one device connected that announced mac AA. -/
def s7pre : ServerState :=
  runEvents initState
    [REvent.connect 1,
     REvent.hello 1 (HelloOutcome.parsed "hello" (some "AA") (some "cam1"))]

/-- C7: evaluation of the code at the failing input.  A binary image payload
arriving while no session is active (no trigger has ever run) raises
NameError — camera_server.py never initialises the module global
current_capture_folder, unlike main.py — so the fallback branch to the
uncategorized directory is unreachable, no file or directory is written, and
the image is lost with the handler terminated. -/
theorem c7_unbound_folder_eval :
    s7pre.current_capture_folder = FolderVar.unbound
    ∧ (handle_binary s7pre 1 100).err = some PyErr.nameError
    ∧ (handle_binary s7pre 1 100).ops = []
    ∧ (handle_binary s7pre 1 100).state = s7pre := by
  exact ⟨rfl, rfl, rfl, rfl⟩

/-- C10: when a device whose recorded hardware address is absent
(client_mac_map.get returns None) sends a binary payload while the capture
folder global is bound, sanitize_filename is applied to None and raises
TypeError, terminating the message loop after that single frame with no
image file written anywhere. -/
theorem c10_missing_mac_type_error (s : ServerState) (ws now : Nat)
    (tsStr : String) (b : Nat) (rest : List Message)
    (hmac : dictGet s.client_mac_map ws = none)
    (hf : s.current_capture_folder ≠ FolderVar.unbound) :
    sanitize_filename_py (dictGet s.client_mac_map ws) = Except.error PyErr.typeError
    ∧ (message_loop s ws now tsStr (Message.binary b :: rest)).err
      = some PyErr.typeError
    ∧ (message_loop s ws now tsStr (Message.binary b :: rest)).consumed = 1
    ∧ ∀ p, FsOp.writeFile p ∉ (message_loop s ws now tsStr (Message.binary b :: rest)).ops := by
  refine ⟨by rw [hmac]; rfl, ?_⟩
  cases hfv : s.current_capture_folder with
  | unbound => exact absurd hfv hf
  | pynone =>
      simp [message_loop, handle_message, handle_binary, hfv,
            handle_binary_save, sanitize_filename_py, hmac]
  | path p =>
      simp [message_loop, handle_message, handle_binary, hfv,
            handle_binary_save, sanitize_filename_py, hmac]

/-- Witness for C10: a connected device that never announced a mac, after a
trigger has bound the capture folder. -/
theorem c10_missing_mac_type_error_witness :
    sanitize_filename_py
        (dictGet (trigger_capture_start (client_connect initState 1) 50 "t").state.client_mac_map 1)
      = Except.error PyErr.typeError
    ∧ (message_loop (trigger_capture_start (client_connect initState 1) 50 "t").state
        1 100 "ts" [Message.binary 5]).err = some PyErr.typeError
    ∧ (message_loop (trigger_capture_start (client_connect initState 1) 50 "t").state
        1 100 "ts" [Message.binary 5]).consumed = 1
    ∧ ∀ p, FsOp.writeFile p
        ∉ (message_loop (trigger_capture_start (client_connect initState 1) 50 "t").state
            1 100 "ts" [Message.binary 5]).ops :=
  c10_missing_mac_type_error
    (trigger_capture_start (client_connect initState 1) 50 "t").state
    1 100 "ts" 5 [] (by decide) (by decide)

theorem check_interval_pos : 0 < check_interval := by
  norm_num [check_interval]

/-- If the poll at index k is the first successful one and it lies inside
the wait window, the loop performs exactly k - k0 further sleeps from
poll index k0, given enough fuel. -/
theorem waitSleepsAux_first_done (done : Nat → Bool) (m : ℚ) (k : Nat)
    (hdone : done k = true) (hfirst : ∀ j, j < k → done j = false)
    (hlt : (k : ℚ) * check_interval < m) :
    ∀ (fuel k0 : Nat), k0 ≤ k → k - k0 < fuel →
      waitSleepsAux done m fuel k0 = k - k0 := by
  intro fuel
  induction fuel with
  | zero => intro k0 _ hf; omega
  | succ f ih =>
      intro k0 hk0 _
      have hk0le : ((k0 : ℚ)) * check_interval ≤ (k : ℚ) * check_interval := by
        have hc : ((k0 : ℚ)) ≤ (k : ℚ) := by exact_mod_cast hk0
        exact mul_le_mul_of_nonneg_right hc (le_of_lt check_interval_pos)
      have hnot : ¬ m ≤ (k0 : ℚ) * check_interval := fun hme =>
        absurd (lt_of_le_of_lt (le_trans hme hk0le) hlt) (lt_irrefl _)
      by_cases hkk : k0 = k
      · subst hkk
        simp [waitSleepsAux, hnot, hdone]
      · have hklt : k0 < k := lt_of_le_of_ne hk0 hkk
        have hdf : done k0 = false := hfirst k0 hklt
        have hrec : waitSleepsAux done m f (k0 + 1) = k - (k0 + 1) :=
          ih (k0 + 1) hklt (by omega)
        simp only [waitSleepsAux, if_neg hnot, hdf, Bool.false_eq_true,
          if_false, hrec]
        omega

/-- The loop never performs more sleeps than it takes for waited to reach
the timeout: with m ≤ N * check_interval, at most N - k0 further sleeps
happen from poll index k0. -/
theorem waitSleepsAux_le (done : Nat → Bool) (m : ℚ) (N : Nat)
    (hN : m ≤ (N : ℚ) * check_interval) :
    ∀ (fuel k0 : Nat), waitSleepsAux done m fuel k0 ≤ N - k0 := by
  intro fuel
  induction fuel with
  | zero => intro k0; simp [waitSleepsAux]
  | succ f ih =>
      intro k0
      by_cases hstop : m ≤ (k0 : ℚ) * check_interval
      · simp [waitSleepsAux, hstop]
      · have hk0N : k0 < N := by
          have h1 : (k0 : ℚ) * check_interval < (N : ℚ) * check_interval :=
            lt_of_lt_of_le (lt_of_not_le hstop) hN
          have h2 : (k0 : ℚ) < (N : ℚ) :=
            lt_of_mul_lt_mul_right h1 (le_of_lt check_interval_pos)
          exact_mod_cast h2
        by_cases hd : done k0
        · simp [waitSleepsAux, hstop, hd]
        · have hrec := ih (k0 + 1)
          simp only [waitSleepsAux, if_neg hstop, hd, Bool.false_eq_true,
            if_false]
          omega

/-- C8 counterexample: with a configured timeout of 0.05 seconds (not a
multiple of the 0.1-second poll interval) and no device ever delivering, the
barrier sleeps once for 0.1 seconds, exceeding the configured timeout. -/
theorem c8_timeout_exceeded_cex :
    waitTotal (fun _ => false) (1 / 20) = 1 / 10
    ∧ ¬ waitTotal (fun _ => false) (1 / 20) ≤ 1 / 20 := by
  have hceil : Int.ceil ((1 / 20 : ℚ) * 10) = 1 := by
    rw [Int.ceil_eq_iff]
    norm_num
  have hsleeps : waitSleeps (fun _ => false) (1 / 20) = 1 := by
    unfold waitSleeps
    rw [hceil]
    norm_num [waitSleepsAux, check_interval]
  constructor
  · unfold waitTotal
    rw [hsleeps]
    norm_num [check_interval]
  · unfold waitTotal
    rw [hsleeps]
    norm_num [check_interval]

/-- C8 amended: the barrier resolves at the first poll at which received
equals expected when that poll happens before the timeout (so an early full
delivery never sleeps out the full timeout), and in every case the total
sleep time is less than the configured timeout plus one poll interval (the
loop can overshoot the timeout by up to one 0.1-second interval when the
timeout is not a multiple of the interval). -/
theorem c8_barrier_wait_bounds (done : Nat → Bool) (m : ℚ) (hm : 0 ≤ m) :
    (∀ k, done k = true → (∀ j, j < k → done j = false) →
        (k : ℚ) * check_interval < m → waitSleeps done m = k)
    ∧ waitTotal done m < m + check_interval := by
  have hceil0 : (0 : ℤ) ≤ Int.ceil (m * 10) := Int.ceil_nonneg (by positivity)
  have hNcast : (((Int.ceil (m * 10)).toNat : ℤ)) = Int.ceil (m * 10) :=
    Int.toNat_of_nonneg hceil0
  have hNcastQ : (((Int.ceil (m * 10)).toNat : ℚ)) = ((Int.ceil (m * 10) : ℤ) : ℚ) := by
    exact_mod_cast hNcast
  have hmN : m ≤ (((Int.ceil (m * 10)).toNat : ℚ)) * check_interval := by
    have h1 : m * 10 ≤ ((Int.ceil (m * 10) : ℤ) : ℚ) := Int.le_ceil _
    rw [← hNcastQ] at h1
    calc m = m * 10 * (1 / 10) := by ring
      _ ≤ (((Int.ceil (m * 10)).toNat : ℚ)) * (1 / 10) := by
            exact mul_le_mul_of_nonneg_right h1 (by norm_num)
      _ = (((Int.ceil (m * 10)).toNat : ℚ)) * check_interval := by
            simp only [check_interval]
  constructor
  · intro k hk hfirst hlt
    have hkN : k - 0 < (Int.ceil (m * 10)).toNat + 1 := by
      have h1 : (k : ℚ) * check_interval
          < (((Int.ceil (m * 10)).toNat : ℚ)) * check_interval :=
        lt_of_lt_of_le hlt hmN
      have h2 : (k : ℚ) < (((Int.ceil (m * 10)).toNat : ℚ)) :=
        lt_of_mul_lt_mul_right h1 (le_of_lt check_interval_pos)
      have h3 : k < (Int.ceil (m * 10)).toNat := by exact_mod_cast h2
      omega
    have h4 := waitSleepsAux_first_done done m k hk hfirst hlt
      ((Int.ceil (m * 10)).toNat + 1) 0 (Nat.zero_le k) hkN
    rw [Nat.sub_zero] at h4
    exact h4
  · have h4 := waitSleepsAux_le done m ((Int.ceil (m * 10)).toNat) hmN
      ((Int.ceil (m * 10)).toNat + 1) 0
    rw [Nat.sub_zero] at h4
    have h6 : (waitSleeps done m : ℚ) ≤ (((Int.ceil (m * 10)).toNat : ℚ)) := by
      exact_mod_cast h4
    have h7 : (((Int.ceil (m * 10)).toNat : ℚ)) < m * 10 + 1 := by
      rw [hNcastQ]
      exact Int.ceil_lt_add_one (m * 10)
    unfold waitTotal
    calc (waitSleeps done m : ℚ) * check_interval
        ≤ (((Int.ceil (m * 10)).toNat : ℚ)) * check_interval :=
          mul_le_mul_of_nonneg_right h6 (le_of_lt check_interval_pos)
      _ < (m * 10 + 1) * check_interval :=
          mul_lt_mul_of_pos_right h7 check_interval_pos
      _ = m + check_interval := by
          simp only [check_interval]; ring

/-- Witness for C8 amended: all three devices report at the poll 0.3 seconds
in, far ahead of the default 15-second timeout, so exactly three sleeps
happen; and the total sleep stays below timeout plus one interval. -/
theorem c8_barrier_wait_bounds_witness :
    waitSleeps (fun k => decide (k = 3)) 15 = 3
    ∧ waitTotal (fun k => decide (k = 3)) 15 < 15 + check_interval := by
  have h := c8_barrier_wait_bounds (fun k => decide (k = 3)) 15 (by norm_num)
  refine ⟨h.1 3 (by decide) (by decide) ?_, h.2⟩
  norm_num [check_interval]

end Photogrammetry
